import Mathlib

/-!
Shallow embedding of the SEO page-analysis and scoring engine from
`src/utils/SeoAnalyzer.ts` (classes `SeoAnalyzer` and `SeoDataExtractor`).

Modelling conventions:
* The HTML markup parser (`DOMParser`) is an external capability (spec calls it
  the Markup Parser adapter).  A parsed document is represented by `Doc`,
  which records exactly the queries the analyzer performs: the text content of
  the first `<title>` element (if any), the `content` attribute of the first
  `<meta name="description">` element (if any; the attribute itself may be
  absent), the text contents of all `<h1>` elements in document order, and the
  `src`/`alt` attributes of all `<img>` elements in document order.
* The WHATWG `URL` constructor is likewise an external web API; `analyzePage`
  receives the result of `new URL(url).pathname` as an `Option String`
  parameter (`none` models the constructor throwing).
* JavaScript numbers are embedded as `Int`/`Nat` (all arithmetic here is
  integral) and exact rationals where division occurs; `Math.round x` is
  `⌊x + 1/2⌋` (round half toward positive infinity).  The value `NaN`
  (arising from `0/0` on an empty batch) is modelled as `none` in an
  `Option Int` result.
* JavaScript `Array.prototype.join(sep)` is `joinWith sep`,
  `String.prototype.trim` is `jsTrim` (strip leading/trailing whitespace),
  `Number.prototype.toString` is `Nat.repr`, `string.length` is
  `String.length` (identical on the ASCII strings involved here),
  `String.prototype.split(c)` for the single-character separators used by the
  source is `splitChar c`, and `String.prototype.replace(/c/g, d)` for
  single characters is `charReplace c d`.  These are defined structurally on
  the character list of the string so that they compute by kernel reduction.
-/

/-- `String.prototype.trim`: remove leading and trailing whitespace. -/
def jsTrim (s : String) : String :=
  ⟨((s.data.dropWhile Char.isWhitespace).reverse.dropWhile
      Char.isWhitespace).reverse⟩

/-- `String.prototype.replace(/a/g, b)` for single characters `a`, `b`. -/
def charReplace (a b : Char) (s : String) : String :=
  ⟨s.data.map (fun ch => if ch = a then b else ch)⟩

/-- Helper for `splitChar`, working on the character list. -/
def splitCharList (c : Char) : List Char → List (List Char)
  | [] => [[]]
  | x :: xs =>
      match splitCharList c xs with
      | [] => [[]]
      | w :: ws => if x = c then [] :: w :: ws else (x :: w) :: ws

/-- `String.prototype.split(c)` for a single-character separator `c`
(JavaScript yields `[""]` on the empty string, matching `splitCharList`). -/
def splitChar (c : Char) (s : String) : List String :=
  (splitCharList c s.data).map String.mk

/-- `type` field of `SeoIssue`: severity `'error' | 'warning' | 'info'`. -/
inductive IssueType
  | error
  | warning
  | info
deriving DecidableEq

/-- `category` field of `SeoIssue`:
`'title' | 'meta_description' | 'h1' | 'images'`. -/
inductive IssueCategory
  | title
  | meta_description
  | h1
  | images
deriving DecidableEq

/-- `SeoIssue` from `SeoAnalyzer.ts`. -/
structure SeoIssue where
  type : IssueType
  category : IssueCategory
  message : String
  details : Option String
deriving DecidableEq

/-- One `<img>` element as the analyzer sees it: its `src` and `alt`
attributes (`none` = attribute absent, mirroring `getAttribute` = `null`). -/
structure ImgElem where
  src : Option String
  alt : Option String
deriving DecidableEq

/-- A parsed HTML document, restricted to the queries `analyzePage` makes.
`titleTextContent` is `textContent` of `querySelector('title')`;
`metaContent` is `some a` when `querySelector('meta[name="description"]')`
finds an element whose `getAttribute('content')` is `a`;
`h1Texts` is `textContent` of each element of `querySelectorAll('h1')`;
`imgs` is `querySelectorAll('img')`. -/
structure Doc where
  titleTextContent : Option String
  metaContent : Option (Option String)
  h1Texts : List String
  imgs : List ImgElem
deriving DecidableEq

/-- One element of `seoDetails.h1Tags`: `{ text, count }`. -/
structure H1TagInfo where
  text : String
  count : Nat
deriving DecidableEq

/-- `seoDetails` of `PageAnalysis`. -/
structure SeoDetails where
  titleText : Option String
  metaDescription : Option String
  h1Tags : List H1TagInfo
  imagesWithoutAlt : List (String × Option String)
deriving DecidableEq

/-- `PageAnalysis` from `SeoAnalyzer.ts`. -/
structure PageAnalysis where
  url : String
  title : String
  issues : List SeoIssue
  score : Int
  crawled : Bool
  seoDetails : SeoDetails
deriving DecidableEq

/-- Title check of `SeoAnalyzer.analyzePage` (lines 32–57): returns the
issues it pushes and the penalty it subtracts from the score.  The
missing/empty test trims the text content; the length comparisons read
`titleElement.textContent.length`, i.e. the untrimmed length. -/
def titleCheck : Option String → List SeoIssue × Nat
  | none =>
      ([{ type := .error, category := .title, message := "Missing title tag",
          details := some "Every page should have a unique title tag for SEO" }], 20)
  | some t =>
      if jsTrim t = "" then
        ([{ type := .error, category := .title, message := "Missing title tag",
            details := some "Every page should have a unique title tag for SEO" }], 20)
      else if 60 < t.length then
        ([{ type := .warning, category := .title, message := "Title tag too long",
            details := some ("Title is " ++ Nat.repr t.length ++
              " characters. Recommended: 50-60 characters") }], 10)
      else if t.length < 30 then
        ([{ type := .warning, category := .title, message := "Title tag too short",
            details := some ("Title is " ++ Nat.repr t.length ++
              " characters. Recommended: 30-60 characters") }], 5)
      else ([], 0)

/-- Meta-description check of `SeoAnalyzer.analyzePage` (lines 59–88).
The argument mirrors `querySelector` + `getAttribute`: `none` = no element,
`some none` = element without a `content` attribute.  The missing/empty test
trims; the length comparisons read the raw `content.length`. -/
def metaCheck : Option (Option String) → List SeoIssue × Nat
  | none =>
      ([{ type := .error, category := .meta_description,
          message := "Missing meta description",
          details := some "Meta descriptions help search engines understand your page content" }], 20)
  | some none =>
      ([{ type := .error, category := .meta_description,
          message := "Missing meta description",
          details := some "Meta descriptions help search engines understand your page content" }], 20)
  | some (some c) =>
      if jsTrim c = "" then
        ([{ type := .error, category := .meta_description,
            message := "Missing meta description",
            details := some "Meta descriptions help search engines understand your page content" }], 20)
      else if 160 < c.length then
        ([{ type := .warning, category := .meta_description,
            message := "Meta description too long",
            details := some ("Description is " ++ Nat.repr c.length ++
              " characters. Recommended: 120-160 characters") }], 10)
      else if c.length < 120 then
        ([{ type := .warning, category := .meta_description,
            message := "Meta description too short",
            details := some ("Description is " ++ Nat.repr c.length ++
              " characters. Recommended: 120-160 characters") }], 5)
      else ([], 0)

/-- H1 check of `SeoAnalyzer.analyzePage` (lines 90–108), in terms of the
number of `<h1>` elements. -/
def h1Check (n : Nat) : List SeoIssue × Nat :=
  if n = 0 then
    ([{ type := .error, category := .h1, message := "Missing H1 tag",
        details := some "Every page should have exactly one H1 tag for SEO hierarchy" }], 15)
  else if 1 < n then
    ([{ type := .warning, category := .h1, message := "Multiple H1 tags found",
        details := some ("Found " ++ Nat.repr n ++
          " H1 tags. Recommended: exactly 1 H1 per page") }], 10)
  else ([], 0)

/-- `!alt || alt.trim() === ''` from lines 113–119: the image lacks a usable
alt attribute. -/
def lacksAlt (i : ImgElem) : Bool :=
  match i.alt with
  | none => true
  | some a => a == "" || jsTrim a == ""

/-- Image check of `SeoAnalyzer.analyzePage` (lines 110–129): the collected
`imagesWithoutAlt` records, the issues pushed, and the penalty. -/
def imagesCheck (imgs : List ImgElem) :
    List (String × Option String) × List SeoIssue × Nat :=
  let without := (imgs.filter lacksAlt).map (fun i => (i.src.getD "", i.alt))
  if 0 < without.length then
    (without,
     [{ type := .warning, category := .images,
        message := Nat.repr without.length ++ " images without alt attributes",
        details := some "Alt attributes improve accessibility and help search engines understand image content" }],
     min (without.length * 2) 15)
  else (without, [], 0)

/-- `Array.prototype.join(sep)`. -/
def joinWith (sep : String) : List String → String
  | [] => ""
  | [a] => a
  | a :: rest => a ++ sep ++ joinWith sep rest

/-- `word.charAt(0).toUpperCase() + word.slice(1)` from line 155. -/
def capitalizeWord (w : String) : String :=
  match w.data with
  | [] => ""
  | c :: cs => String.mk (c.toUpper :: cs)

/-- Display-title derivation of `SeoAnalyzer.analyzePage` (lines 134–162).
`pathname` is the result of `new URL(url).pathname` (`none` = the
constructor threw, i.e. the `catch` branch). -/
def derivedTitle (titleTC : Option String) (h1Texts : List String)
    (pathname : Option String) : String :=
  let titleText := match titleTC with
    | some s => jsTrim s
    | none => ""
  if 0 < titleText.length then titleText
  else
    let firstH1 := match h1Texts.head? with
      | some s => jsTrim s
      | none => ""
    if 3 < firstH1.length then firstH1
    else
      match pathname with
      | none => "No title"
      | some p =>
          let pathParts := (splitChar '/' p).filter (fun s => decide (0 < s.length))
          match pathParts.getLast? with
          | none => "No title"
          | some lastPart =>
              let t := joinWith " "
                ((splitChar ' ' (charReplace '_' ' ' (charReplace '-' ' ' lastPart))).map
                  capitalizeWord)
              if t = "" then "No title" else t

/-- `SeoAnalyzer.analyzePage` (lines 23–177).  `doc` is the result of the
external `DOMParser` on the `html` argument, `pathname` the result of the
external `new URL(url).pathname`. -/
def analyzePage (url : String) (pathname : Option String) (doc : Doc) :
    PageAnalysis :=
  let tc := titleCheck doc.titleTextContent
  let mc := metaCheck doc.metaContent
  let hc := h1Check doc.h1Texts.length
  let ic := imagesCheck doc.imgs
  { url := url
    title := derivedTitle doc.titleTextContent doc.h1Texts pathname
    issues := tc.1 ++ mc.1 ++ hc.1 ++ ic.2.1
    score := max 0 (100 - ((tc.2 + mc.2 + hc.2 + ic.2.2 : Nat) : Int))
    crawled := true
    seoDetails :=
      { titleText := match doc.titleTextContent with
          | none => none
          | some s => if s.trim = "" then none else some s.trim
        metaDescription := match doc.metaContent with
          | some (some c) => if jsTrim c = "" then none else some c.trim
          | _ => none
        h1Tags := [{ text := joinWith ", " (doc.h1Texts.map String.trim),
                     count := doc.h1Texts.length }]
        imagesWithoutAlt := ic.1 } }

/-- The end-to-end example document: `DOMParser` applied to
`<html><head></head><body><img src="a.png"></body></html>` (no title element,
no meta description, no h1, one image with `src="a.png"` and no `alt`). -/
def exDoc : Doc :=
  { titleTextContent := none, metaContent := none, h1Texts := [],
    imgs := [{ src := some "a.png", alt := none }] }

/-- A document with no title, meta description, h1 elements or images. -/
def emptyDoc : Doc :=
  { titleTextContent := none, metaContent := none, h1Texts := [], imgs := [] }

/-- `Math.round` on an exact rational: round to nearest, ties toward
positive infinity (`Math.round(0.5) = 1`, `Math.round(-0.5) = -0`). -/
def mathRound (x : ℚ) : ℤ := ⌊x + 1 / 2⌋

/-- `issuesByType[issue.type]++` from line 199: the per-type counter map
with the count for `t` incremented. -/
def bumpType (c : IssueType → Nat) (t : IssueType) : IssueType → Nat :=
  fun u => if u = t then c u + 1 else c u

/-- `issuesByCategory[issue.category]++` from line 200. -/
def bumpCat (c : IssueCategory → Nat) (t : IssueCategory) : IssueCategory → Nat :=
  fun u => if u = t then c u + 1 else c u

/-- Position of a category in the insertion order of the
`issuesByCategory` object literal (title, meta_description, h1, images);
`Object.entries` enumerates keys in this order. -/
def catIdx : IssueCategory → Nat
  | .title => 0
  | .meta_description => 1
  | .h1 => 2
  | .images => 3

/-- One insertion step of a stable descending-by-count sort: the new entry
`x` goes after every already-placed entry with count ≥ its own.  This is
the behaviour of the stable `Array.prototype.sort(([,a],[,b]) => b - a)`
on line 211. -/
def insertDesc (x : IssueCategory × Nat) :
    List (IssueCategory × Nat) → List (IssueCategory × Nat)
  | [] => [x]
  | y :: ys => if x.2 ≤ y.2 then y :: insertDesc x ys else x :: y :: ys

/-- Stable sort of category/count entries by count descending
(`.sort(([,a],[,b]) => b - a)`, which ECMAScript guarantees stable). -/
def sortDescStable (l : List (IssueCategory × Nat)) :
    List (IssueCategory × Nat) :=
  l.foldl (fun acc x => insertDesc x acc) []

/-- The ordering produced by the stable descending sort on the four
category entries: strictly larger count first; equal counts keep the
category-enumeration order. -/
def entryRel (a b : IssueCategory × Nat) : Prop :=
  b.2 < a.2 ∨ (a.2 = b.2 ∧ catIdx a.1 < catIdx b.1)

/-- The record returned by `SeoAnalyzer.generateSummary` (lines 179–215).
`issuesByType` and `issuesByCategory` are the two counter objects, embedded
as maps; `averageScore` is `Option Int` with `none` standing for the
IEEE-754 `NaN` produced by `0 / 0` on an empty batch. -/
structure Summary where
  totalPages : Nat
  totalIssues : Nat
  averageScore : Option Int
  issuesByType : IssueType → Nat
  issuesByCategory : IssueCategory → Nat
  topIssues : List (IssueCategory × Nat)

/-- `SeoAnalyzer.generateSummary` (lines 179–215).  The reduces become
`foldl`, the `forEach` counting loop becomes a fold bumping both counter
maps, and `topIssues` is the stable descending sort of the
`Object.entries` list truncated to three. -/
def generateSummary (analyses : List PageAnalysis) : Summary :=
  let totalPages := analyses.length
  let totalIssues := analyses.foldl (fun s pg => s + pg.issues.length) 0
  let scoreSum : Int := analyses.foldl (fun s pg => s + pg.score) 0
  let counts :=
    analyses.foldl
      (fun acc pg =>
        pg.issues.foldl
          (fun a i => (bumpType a.1 i.type, bumpCat a.2 i.category)) acc)
      (fun _ => 0, fun _ => 0)
  { totalPages := totalPages
    totalIssues := totalIssues
    averageScore :=
      if totalPages = 0 then none
      else some (mathRound ((scoreSum : ℚ) / (totalPages : ℚ)))
    issuesByType := counts.1
    issuesByCategory := counts.2
    topIssues :=
      (sortDescStable
        [(IssueCategory.title, counts.2 IssueCategory.title),
         (IssueCategory.meta_description, counts.2 IssueCategory.meta_description),
         (IssueCategory.h1, counts.2 IssueCategory.h1),
         (IssueCategory.images, counts.2 IssueCategory.images)]).take 3 }

/-- `SeoDataRow` from `SeoAnalyzer.ts` (lines 218–233). -/
structure SeoDataRow where
  url : String
  titleContent : String
  titleIssue : String
  metaDescription : String
  metaIssue : String
  h1Count : Nat
  h1Content : String
  h1Issue : String
  imagesWithoutAlt : Nat
  totalImages : Nat
  titleSuggestion : String
  metaSuggestion : String
  h1Suggestion : String
  imageSuggestion : String
deriving DecidableEq

/-- `SeoDataExtractor.extractSeoData` (lines 239–314), a 1:1 `map` from
analyses to rows.  JavaScript falsiness of `''` makes the `|| 'MISSING'`
fallbacks also fire on empty strings. -/
def extractSeoData (analyses : List PageAnalysis) : List SeoDataRow :=
  analyses.map (fun analysis =>
    let titleContent := match analysis.seoDetails.titleText with
      | none => "MISSING"
      | some s => if s = "" then "MISSING" else s
    let titleLength := if titleContent = "MISSING" then 0 else titleContent.length
    let titleMissing := match analysis.seoDetails.titleText with
      | none => true
      | some s => s = ""
    let titleIssue :=
      if titleMissing then "Missing"
      else if 60 < titleLength then "Too Long"
      else if titleLength < 30 then "Too Short"
      else "Good"
    let titleSuggestion :=
      if titleMissing then
        "Add a unique, descriptive title tag (30-60 characters) that includes your main keyword."
      else if 60 < titleLength then
        "Shorten your title to 50-60 characters (currently " ++
          Nat.repr titleLength ++ "). Focus on your main keyword and value proposition."
      else if titleLength < 30 then
        "Expand your title to 30-60 characters (currently " ++
          Nat.repr titleLength ++ "). Add more descriptive keywords."
      else "Your title tag is well optimized."
    let metaDescription := match analysis.seoDetails.metaDescription with
      | none => "MISSING"
      | some s => if s = "" then "MISSING" else s
    let metaLength := if metaDescription = "MISSING" then 0 else metaDescription.length
    let metaMissing := match analysis.seoDetails.metaDescription with
      | none => true
      | some s => s = ""
    let metaIssue :=
      if metaMissing then "Missing"
      else if 160 < metaLength then "Too Long"
      else if metaLength < 120 then "Too Short"
      else "Good"
    let metaSuggestion :=
      if metaMissing then
        "Add a compelling meta description (120-160 characters) that summarizes your page and includes relevant keywords."
      else if 160 < metaLength then
        "Shorten your meta description to 120-160 characters (currently " ++
          Nat.repr metaLength ++ "). Focus on the most important benefits."
      else if metaLength < 120 then
        "Expand your meta description to 120-160 characters (currently " ++
          Nat.repr metaLength ++ "). Add more compelling details."
      else "Your meta description is well optimized."
    let h1Count := match analysis.seoDetails.h1Tags.head? with
      | some tag => tag.count
      | none => 0
    let h1Content := match analysis.seoDetails.h1Tags.head? with
      | some tag => if tag.text = "" then "MISSING" else tag.text
      | none => "MISSING"
    let h1Issue :=
      if h1Count = 0 then "Missing"
      else if 1 < h1Count then "Multiple H1s"
      else "Good"
    let h1Suggestion :=
      if h1Count = 0 then
        "Add exactly one H1 tag that clearly describes your page content and includes your main keyword."
      else if 1 < h1Count then
        "Use only one H1 tag per page (you have " ++ Nat.repr h1Count ++
          "). Convert extra H1s to H2 or H3 tags for proper hierarchy."
      else "Your H1 tag structure is optimized."
    let imagesWithoutAlt := analysis.seoDetails.imagesWithoutAlt.length
    let imageSuggestion :=
      if 0 < imagesWithoutAlt then
        "Add descriptive alt text to " ++ Nat.repr imagesWithoutAlt ++
          " image(s). Alt text helps screen readers and search engines understand your images."
      else "All images have alt text - great for accessibility!"
    { url := analysis.url
      titleContent := titleContent
      titleIssue := titleIssue
      metaDescription := metaDescription
      metaIssue := metaIssue
      h1Count := h1Count
      h1Content := h1Content
      h1Issue := h1Issue
      imagesWithoutAlt := imagesWithoutAlt
      totalImages := 0
      titleSuggestion := titleSuggestion
      metaSuggestion := metaSuggestion
      h1Suggestion := h1Suggestion
      imageSuggestion := imageSuggestion })

/-- A count plus its percentage of the batch; the percentage is `Option Int`
with `none` standing for the non-finite `Math.round((c / 0) * 100)`. -/
structure ReportCount where
  count : Nat
  percentage : Option Int
deriving DecidableEq

/-- The `imagesWithoutAlt` block of the summary report; `averagePerPage` is
`none` for the `NaN` of `0 / 0` on an empty batch. -/
structure AltTotals where
  total : Nat
  averagePerPage : Option Int
deriving DecidableEq

/-- The record returned by `SeoDataExtractor.generateSummaryReport`
(lines 319–352), with the nested `issues` object flattened into fields. -/
structure SummaryReport where
  totalPages : Nat
  missingTitles : ReportCount
  missingMetaDescriptions : ReportCount
  noH1Tags : ReportCount
  multipleH1Tags : ReportCount
  imagesWithoutAlt : AltTotals
deriving DecidableEq

/-- `Math.round((c / t) * 100)` with `none` for a non-finite result
(`t = 0`). -/
def pctOf (c t : Nat) : Option Int :=
  if t = 0 then none else some (mathRound ((c : ℚ) / (t : ℚ) * 100))

/-- `SeoDataExtractor.generateSummaryReport` (lines 319–352). -/
def generateSummaryReport (seoData : List SeoDataRow) : SummaryReport :=
  let totalPages := seoData.length
  let pagesWithMissingTitles :=
    (seoData.filter (fun row => row.titleIssue == "Missing")).length
  let pagesWithMissingMetaDesc :=
    (seoData.filter (fun row => row.metaIssue == "Missing")).length
  let pagesWithNoH1 := (seoData.filter (fun row => row.h1Count == 0)).length
  let pagesWithMultipleH1 :=
    (seoData.filter (fun row => decide (1 < row.h1Count))).length
  let totalImagesWithoutAlt :=
    seoData.foldl (fun s row => s + row.imagesWithoutAlt) 0
  { totalPages := totalPages
    missingTitles :=
      { count := pagesWithMissingTitles
        percentage := pctOf pagesWithMissingTitles totalPages }
    missingMetaDescriptions :=
      { count := pagesWithMissingMetaDesc
        percentage := pctOf pagesWithMissingMetaDesc totalPages }
    noH1Tags :=
      { count := pagesWithNoH1
        percentage := pctOf pagesWithNoH1 totalPages }
    multipleH1Tags :=
      { count := pagesWithMultipleH1
        percentage := pctOf pagesWithMultipleH1 totalPages }
    imagesWithoutAlt :=
      { total := totalImagesWithoutAlt
        averagePerPage :=
          if totalPages = 0 then none
          else some (mathRound ((totalImagesWithoutAlt : ℚ) / (totalPages : ℚ))) } }

/-- The header array of `SeoDataExtractor.convertToCSV` (lines 358–372). -/
def csvHeaders : List String :=
  ["Page URL", "Current Title Tag", "Title Issue", "Title Recommendation",
   "Current Meta Description", "Meta Issue", "Meta Recommendation",
   "H1 Count", "H1 Content", "H1 Issue", "H1 Recommendation",
   "Images Missing Alt Text", "Image Recommendation"]

/-- Wrap a field value in double quotes (no escaping), as in lines 377–389. -/
def quoteField (s : String) : String := "\"" ++ s ++ "\""

/-- One CSV data row (lines 376–390): string fields quoted, the numeric
`h1Count` and `imagesWithoutAlt` emitted unquoted via `toString`. -/
def rowLine (row : SeoDataRow) : String :=
  joinWith ","
    [quoteField row.url, quoteField row.titleContent, quoteField row.titleIssue,
     quoteField row.titleSuggestion, quoteField row.metaDescription,
     quoteField row.metaIssue, quoteField row.metaSuggestion,
     Nat.repr row.h1Count, quoteField row.h1Content, quoteField row.h1Issue,
     quoteField row.h1Suggestion, Nat.repr row.imagesWithoutAlt,
     quoteField row.imageSuggestion]

/-- `SeoDataExtractor.convertToCSV` (lines 357–394): header line first, one
line per row, joined by newline. -/
def convertToCSV (seoData : List SeoDataRow) : String :=
  joinWith "\n" (joinWith "," csvHeaders :: seoData.map rowLine)

/-- Number of newline characters in a string. -/
def nlCount (s : String) : Nat := s.data.count '\n'

/-- Number of lines of a string, as a text file reader would count them. -/
def lineCount (s : String) : Nat := nlCount s + 1

/-- A string containing no newline character. -/
def noNewline (s : String) : Prop := nlCount s = 0

/-- All eleven string fields of a row are newline-free. -/
def rowNewlineFree (row : SeoDataRow) : Prop :=
  noNewline row.url ∧ noNewline row.titleContent ∧ noNewline row.titleIssue ∧
  noNewline row.titleSuggestion ∧ noNewline row.metaDescription ∧
  noNewline row.metaIssue ∧ noNewline row.metaSuggestion ∧
  noNewline row.h1Content ∧ noNewline row.h1Issue ∧
  noNewline row.h1Suggestion ∧ noNewline row.imageSuggestion

/-- A minimal `PageAnalysis` value used to instantiate hypotheses of the
summary theorems at a concrete input. -/
def pa0 : PageAnalysis :=
  { url := "u", title := "t", issues := [], score := 80, crawled := true
    seoDetails :=
      { titleText := none, metaDescription := none,
        h1Tags := [{ text := "", count := 0 }], imagesWithoutAlt := [] } }

/-- A row whose `url` field contains a newline, breaking the
lines-count property of `convertToCSV`. -/
def badRow : SeoDataRow :=
  { url := "a\nb", titleContent := "", titleIssue := "", metaDescription := "",
    metaIssue := "", h1Count := 0, h1Content := "", h1Issue := "",
    imagesWithoutAlt := 0, totalImages := 0, titleSuggestion := "",
    metaSuggestion := "", h1Suggestion := "", imageSuggestion := "" }

/-- A row with empty string fields, used to instantiate the CSV line-count
theorem at a concrete input. -/
def row0 : SeoDataRow :=
  { url := "", titleContent := "", titleIssue := "", metaDescription := "",
    metaIssue := "", h1Count := 0, h1Content := "", h1Issue := "",
    imagesWithoutAlt := 0, totalImages := 0, titleSuggestion := "",
    metaSuggestion := "", h1Suggestion := "", imageSuggestion := "" }

lemma titleCheck_category (t : Option String) :
    ∀ i ∈ (titleCheck t).1, i.category = IssueCategory.title := by
  rcases t with _ | t <;> simp only [titleCheck]
  · simp
  · split_ifs <;> simp

lemma metaCheck_category (m : Option (Option String)) :
    ∀ i ∈ (metaCheck m).1, i.category = IssueCategory.meta_description := by
  rcases m with _ | (_ | c) <;> simp only [metaCheck]
  · simp
  · simp
  · split_ifs <;> simp

lemma h1Check_category (n : Nat) :
    ∀ i ∈ (h1Check n).1, i.category = IssueCategory.h1 := by
  simp only [h1Check]; split_ifs <;> simp

lemma imagesCheck_category (imgs : List ImgElem) :
    ∀ i ∈ (imagesCheck imgs).2.1, i.category = IssueCategory.images := by
  simp only [imagesCheck]; split_ifs <;> simp

lemma filter_cat_eq {l : List SeoIssue} {c : IssueCategory}
    (h : ∀ i ∈ l, i.category = c) (x : IssueCategory) :
    l.filter (fun i => i.category == x) = if c = x then l else [] := by
  split_ifs with hx
  · subst hx; exact List.filter_eq_self.mpr fun i hi => by simp [h i hi]
  · exact List.filter_eq_nil_iff.mpr fun i hi => by simp [h i hi, hx]

lemma analyzePage_issues (url : String) (p : Option String) (doc : Doc) :
    (analyzePage url p doc).issues =
      (titleCheck doc.titleTextContent).1 ++ (metaCheck doc.metaContent).1 ++
      (h1Check doc.h1Texts.length).1 ++ (imagesCheck doc.imgs).2.1 := rfl

lemma issues_filter_title (url : String) (p : Option String) (doc : Doc) :
    (analyzePage url p doc).issues.filter
        (fun i => i.category == IssueCategory.title) =
      (titleCheck doc.titleTextContent).1 := by
  rw [analyzePage_issues]
  simp only [List.filter_append,
    filter_cat_eq (titleCheck_category doc.titleTextContent),
    filter_cat_eq (metaCheck_category doc.metaContent),
    filter_cat_eq (h1Check_category doc.h1Texts.length),
    filter_cat_eq (imagesCheck_category doc.imgs)]
  simp

lemma issues_filter_meta (url : String) (p : Option String) (doc : Doc) :
    (analyzePage url p doc).issues.filter
        (fun i => i.category == IssueCategory.meta_description) =
      (metaCheck doc.metaContent).1 := by
  rw [analyzePage_issues]
  simp only [List.filter_append,
    filter_cat_eq (titleCheck_category doc.titleTextContent),
    filter_cat_eq (metaCheck_category doc.metaContent),
    filter_cat_eq (h1Check_category doc.h1Texts.length),
    filter_cat_eq (imagesCheck_category doc.imgs)]
  simp

lemma issues_filter_h1 (url : String) (p : Option String) (doc : Doc) :
    (analyzePage url p doc).issues.filter
        (fun i => i.category == IssueCategory.h1) =
      (h1Check doc.h1Texts.length).1 := by
  rw [analyzePage_issues]
  simp only [List.filter_append,
    filter_cat_eq (titleCheck_category doc.titleTextContent),
    filter_cat_eq (metaCheck_category doc.metaContent),
    filter_cat_eq (h1Check_category doc.h1Texts.length),
    filter_cat_eq (imagesCheck_category doc.imgs)]
  simp

lemma issues_filter_images (url : String) (p : Option String) (doc : Doc) :
    (analyzePage url p doc).issues.filter
        (fun i => i.category == IssueCategory.images) =
      (imagesCheck doc.imgs).2.1 := by
  rw [analyzePage_issues]
  simp only [List.filter_append,
    filter_cat_eq (titleCheck_category doc.titleTextContent),
    filter_cat_eq (metaCheck_category doc.metaContent),
    filter_cat_eq (h1Check_category doc.h1Texts.length),
    filter_cat_eq (imagesCheck_category doc.imgs)]
  simp

lemma imagesCheck_fst (imgs : List ImgElem) :
    (imagesCheck imgs).1 =
      (imgs.filter lacksAlt).map (fun i => (i.src.getD "", i.alt)) := by
  simp only [imagesCheck]; split_ifs <;> rfl

lemma imagesCheck_issues (imgs : List ImgElem) :
    (imagesCheck imgs).2.1 =
      if (imgs.filter lacksAlt).length = 0 then []
      else
        [{ type := .warning, category := .images,
           message := Nat.repr (imgs.filter lacksAlt).length ++
             " images without alt attributes",
           details := some "Alt attributes improve accessibility and help search engines understand image content" }] := by
  simp only [imagesCheck, List.length_map]
  rcases Nat.eq_zero_or_pos (imgs.filter lacksAlt).length with h | h
  · simp [h]
  · rw [if_pos h, if_neg (by omega)]

lemma imagesCheck_pen (imgs : List ImgElem) :
    (imagesCheck imgs).2.2 =
      if (imgs.filter lacksAlt).length = 0 then 0
      else min ((imgs.filter lacksAlt).length * 2) 15 := by
  simp only [imagesCheck, List.length_map]
  rcases Nat.eq_zero_or_pos (imgs.filter lacksAlt).length with h | h
  · simp [h]
  · rw [if_pos h, if_neg (by omega)]

/-- C1: `analyzePage` returns `score = max 0 (100 − sum of the four checks'
penalties)`, hence `0 ≤ score ≤ 100` for every input; on the document parsed
from `<html><head></head><body><img src="a.png"></body></html>` at url
`https://example.com/about-us` the score is exactly `43` and the four issues
are recorded in order (penalties 20 + 20 + 15 + 2). -/
theorem claim_C1 (url : String) (p : Option String) (doc : Doc) :
    ((analyzePage url p doc).score =
        max 0 (100 - (((titleCheck doc.titleTextContent).2 +
          (metaCheck doc.metaContent).2 + (h1Check doc.h1Texts.length).2 +
          (imagesCheck doc.imgs).2.2 : Nat) : Int)) ∧
      0 ≤ (analyzePage url p doc).score ∧
      (analyzePage url p doc).score ≤ 100) ∧
    (analyzePage "https://example.com/about-us" (some "/about-us") exDoc).score = 43 ∧
    (analyzePage "https://example.com/about-us" (some "/about-us") exDoc).issues.map
        (fun i => i.message) =
      ["Missing title tag", "Missing meta description", "Missing H1 tag",
       "1 images without alt attributes"] := by
  refine ⟨⟨rfl, le_max_left _ _, ?_⟩, by decide, by decide⟩
  have h : (analyzePage url p doc).score =
      max 0 (100 - (((titleCheck doc.titleTextContent).2 +
        (metaCheck doc.metaContent).2 + (h1Check doc.h1Texts.length).2 +
        (imagesCheck doc.imgs).2.2 : Nat) : Int)) := rfl
  rw [h]
  apply max_le <;> omega

/-- C2 counterexample: a `<title>` whose text content is 29 `a`s followed by
one space.  Its trimmed length is 29 (< 30), so the claim demands a
"Title tag too short" warning, but the code compares the untrimmed length
(30) and records no title issue at all. -/
theorem claim_C2_counterexample :
    (jsTrim (String.mk (List.replicate 29 'a' ++ [' ']))).length = 29 ∧
    (analyzePage "u" none
        { titleTextContent := some (String.mk (List.replicate 29 'a' ++ [' '])),
          metaContent := none, h1Texts := [], imgs := [] }).issues.filter
        (fun i => i.category == IssueCategory.title) = [] :=
  ⟨by decide, by decide⟩

/-- C2 (amended): the missing/empty test trims the `<title>` text content,
but the 30/60 length thresholds are evaluated on the *untrimmed* text
content length; boundaries 30 and 60 are inclusive on that raw length. -/
theorem claim_C2 (url : String) (p : Option String) (doc : Doc) :
    match doc.titleTextContent with
    | none =>
        (analyzePage url p doc).issues.filter
            (fun i => i.category == IssueCategory.title) =
          [{ type := .error, category := .title, message := "Missing title tag",
             details := some "Every page should have a unique title tag for SEO" }] ∧
        (titleCheck doc.titleTextContent).2 = 20
    | some t =>
        if jsTrim t = "" then
          (analyzePage url p doc).issues.filter
              (fun i => i.category == IssueCategory.title) =
            [{ type := .error, category := .title, message := "Missing title tag",
               details := some "Every page should have a unique title tag for SEO" }] ∧
          (titleCheck doc.titleTextContent).2 = 20
        else if 60 < t.length then
          (analyzePage url p doc).issues.filter
              (fun i => i.category == IssueCategory.title) =
            [{ type := .warning, category := .title, message := "Title tag too long",
               details := some ("Title is " ++ Nat.repr t.length ++
                 " characters. Recommended: 50-60 characters") }] ∧
          (titleCheck doc.titleTextContent).2 = 10
        else if t.length < 30 then
          (analyzePage url p doc).issues.filter
              (fun i => i.category == IssueCategory.title) =
            [{ type := .warning, category := .title, message := "Title tag too short",
               details := some ("Title is " ++ Nat.repr t.length ++
                 " characters. Recommended: 30-60 characters") }] ∧
          (titleCheck doc.titleTextContent).2 = 5
        else
          (analyzePage url p doc).issues.filter
              (fun i => i.category == IssueCategory.title) = [] ∧
          (titleCheck doc.titleTextContent).2 = 0 := by
  have hf := issues_filter_title url p doc
  rcases hd : doc.titleTextContent with _ | t <;> rw [hd] at hf
  · simp only [hd, hf, titleCheck]
    exact ⟨trivial, trivial⟩
  · simp only [hd, hf, titleCheck]
    split_ifs <;> simp

/-- C3 counterexample: a `<meta name="description">` whose `content` is 119
`a`s followed by one space.  Its trimmed length is 119 (< 120), so the claim
demands a "too short" warning, but the code compares the untrimmed length
(120) and records no meta_description issue. -/
theorem claim_C3_counterexample :
    (jsTrim (String.mk (List.replicate 119 'a' ++ [' ']))).length = 119 ∧
    (analyzePage "u" none
        { titleTextContent := none,
          metaContent := some (some (String.mk (List.replicate 119 'a' ++ [' ']))),
          h1Texts := [], imgs := [] }).issues.filter
        (fun i => i.category == IssueCategory.meta_description) = [] := by
  set_option maxRecDepth 40000 in
  exact ⟨by decide, by decide⟩

/-- C3 (amended): the missing/empty test trims the `content` attribute, but
the 120/160 length thresholds are evaluated on the *untrimmed* attribute
length; boundaries 120 and 160 are inclusive on that raw length. -/
theorem claim_C3 (url : String) (p : Option String) (doc : Doc) :
    match doc.metaContent with
    | none =>
        (analyzePage url p doc).issues.filter
            (fun i => i.category == IssueCategory.meta_description) =
          [{ type := .error, category := .meta_description,
             message := "Missing meta description",
             details := some "Meta descriptions help search engines understand your page content" }] ∧
        (metaCheck doc.metaContent).2 = 20
    | some none =>
        (analyzePage url p doc).issues.filter
            (fun i => i.category == IssueCategory.meta_description) =
          [{ type := .error, category := .meta_description,
             message := "Missing meta description",
             details := some "Meta descriptions help search engines understand your page content" }] ∧
        (metaCheck doc.metaContent).2 = 20
    | some (some c) =>
        if jsTrim c = "" then
          (analyzePage url p doc).issues.filter
              (fun i => i.category == IssueCategory.meta_description) =
            [{ type := .error, category := .meta_description,
               message := "Missing meta description",
               details := some "Meta descriptions help search engines understand your page content" }] ∧
          (metaCheck doc.metaContent).2 = 20
        else if 160 < c.length then
          (analyzePage url p doc).issues.filter
              (fun i => i.category == IssueCategory.meta_description) =
            [{ type := .warning, category := .meta_description,
               message := "Meta description too long",
               details := some ("Description is " ++ Nat.repr c.length ++
                 " characters. Recommended: 120-160 characters") }] ∧
          (metaCheck doc.metaContent).2 = 10
        else if c.length < 120 then
          (analyzePage url p doc).issues.filter
              (fun i => i.category == IssueCategory.meta_description) =
            [{ type := .warning, category := .meta_description,
               message := "Meta description too short",
               details := some ("Description is " ++ Nat.repr c.length ++
                 " characters. Recommended: 120-160 characters") }] ∧
          (metaCheck doc.metaContent).2 = 5
        else
          (analyzePage url p doc).issues.filter
              (fun i => i.category == IssueCategory.meta_description) = [] ∧
          (metaCheck doc.metaContent).2 = 0 := by
  have hf := issues_filter_meta url p doc
  rcases hd : doc.metaContent with _ | (_ | c) <;> rw [hd] at hf
  · simp only [hd, hf, metaCheck]
    exact ⟨trivial, trivial⟩
  · simp only [hd, hf, metaCheck]
    exact ⟨trivial, trivial⟩
  · simp only [hd, hf, metaCheck]
    split_ifs <;> simp

/-- C4: with `k` the number of `<h1>` elements, `k = 0` records the error
"Missing H1 tag" with penalty 15 (not 20), `k > 1` records the warning
"Multiple H1 tags found" whose details embed the exact count `k` with
penalty 10, and `k = 1` records no h1 issue. -/
theorem claim_C4 (url : String) (p : Option String) (doc : Doc) :
    if doc.h1Texts.length = 0 then
      (analyzePage url p doc).issues.filter
          (fun i => i.category == IssueCategory.h1) =
        [{ type := .error, category := .h1, message := "Missing H1 tag",
           details := some "Every page should have exactly one H1 tag for SEO hierarchy" }] ∧
      (h1Check doc.h1Texts.length).2 = 15
    else if 1 < doc.h1Texts.length then
      (analyzePage url p doc).issues.filter
          (fun i => i.category == IssueCategory.h1) =
        [{ type := .warning, category := .h1, message := "Multiple H1 tags found",
           details := some ("Found " ++ Nat.repr doc.h1Texts.length ++
             " H1 tags. Recommended: exactly 1 H1 per page") }] ∧
      (h1Check doc.h1Texts.length).2 = 10
    else
      (analyzePage url p doc).issues.filter
          (fun i => i.category == IssueCategory.h1) = [] ∧
      (h1Check doc.h1Texts.length).2 = 0 := by
  have hf := issues_filter_h1 url p doc
  simp only [hf, h1Check]
  split_ifs <;> simp

/-- C5: an `<img>` lacks usable alt exactly when the `alt` attribute is
absent or trims to the empty string (`alt=""` counts as missing,
`alt="x"` does not); each such image is collected as `{src, alt}` with
`src = ""` when the attribute is absent; with `N` such images, the issues
are exactly one warning `"<N> images without alt attributes"` when `N > 0`,
and the penalty is `min (N * 2) 15`, which never exceeds 15. -/
theorem claim_C5 (url : String) (p : Option String) (doc : Doc) :
    (∀ i : ImgElem, lacksAlt i = (jsTrim (i.alt.getD "") == "")) ∧
    lacksAlt { src := none, alt := some "" } = true ∧
    lacksAlt { src := none, alt := some "x" } = false ∧
    (analyzePage url p doc).seoDetails.imagesWithoutAlt =
      (doc.imgs.filter lacksAlt).map (fun i => (i.src.getD "", i.alt)) ∧
    (analyzePage url p doc).issues.filter
        (fun i => i.category == IssueCategory.images) =
      (if (doc.imgs.filter lacksAlt).length = 0 then []
       else
        [{ type := .warning, category := .images,
           message := Nat.repr (doc.imgs.filter lacksAlt).length ++
             " images without alt attributes",
           details := some "Alt attributes improve accessibility and help search engines understand image content" }]) ∧
    (imagesCheck doc.imgs).2.2 =
      (if (doc.imgs.filter lacksAlt).length = 0 then 0
       else min ((doc.imgs.filter lacksAlt).length * 2) 15) ∧
    (imagesCheck doc.imgs).2.2 ≤ 15 := by
  refine ⟨?_, by decide, by decide, ?_, ?_, imagesCheck_pen doc.imgs, ?_⟩
  · intro i
    rcases i with ⟨s, _ | a⟩
    · rfl
    · show (a == "" || jsTrim a == "") = (jsTrim a == "")
      by_cases ha : a = ""
      · subst ha; rfl
      · simp [ha]
  · show (imagesCheck doc.imgs).1 = _
    exact imagesCheck_fst doc.imgs
  · rw [issues_filter_images]
    exact imagesCheck_issues doc.imgs
  · rw [imagesCheck_pen doc.imgs]
    split_ifs <;> omega

/-- C6: the display `title` follows the fallback chain — trimmed `<title>`
text if non-empty; else the first `<h1>`'s trimmed text if longer than 3
characters; else the last non-empty pathname segment with `-`/`_` replaced
by spaces and each word capitalized, with the literal `"No title"` when that
yields an empty string, URL parsing fails, or there is no path segment.  In
particular an empty-bodied page at `https://example.com/about-us` gets the
display title `"About Us"`. -/
theorem claim_C6 (url : String) (p : Option String) (doc : Doc) :
    ((analyzePage url p doc).title =
      (let titleText := match doc.titleTextContent with
        | some s => jsTrim s
        | none => ""
       if 0 < titleText.length then titleText
       else
        let firstH1 := match doc.h1Texts.head? with
          | some s => jsTrim s
          | none => ""
        if 3 < firstH1.length then firstH1
        else
          match p with
          | none => "No title"
          | some pth =>
              let pathParts :=
                (splitChar '/' pth).filter (fun s => decide (0 < s.length))
              match pathParts.getLast? with
              | none => "No title"
              | some lastPart =>
                  let t := joinWith " "
                    ((splitChar ' '
                        (charReplace '_' ' ' (charReplace '-' ' ' lastPart))).map
                      capitalizeWord)
                  if t = "" then "No title" else t)) ∧
    (analyzePage "https://example.com/about-us" (some "/about-us") emptyDoc).title =
      "About Us" ∧
    (analyzePage "u" none emptyDoc).title = "No title" ∧
    (analyzePage "https://example.com/" (some "/") emptyDoc).title = "No title" := by
  exact ⟨rfl, by decide, by decide, by decide⟩

lemma foldl_add_map {α M : Type} [AddCommMonoid M] (f : α → M) :
    ∀ (l : List α) (n : M), l.foldl (fun s a => s + f a) n = n + (l.map f).sum
  | [], n => by simp
  | x :: xs, n => by
      rw [List.foldl_cons, foldl_add_map f xs (n + f x), List.map_cons,
        List.sum_cons, add_assoc]

lemma issuesFold_type (issues : List SeoIssue)
    (acc : (IssueType → Nat) × (IssueCategory → Nat)) (t : IssueType) :
    (issues.foldl
        (fun a i => (bumpType a.1 i.type, bumpCat a.2 i.category)) acc).1 t =
      acc.1 t + issues.countP (fun i => i.type == t) := by
  induction issues generalizing acc with
  | nil => simp
  | cons i is ih =>
      rw [List.foldl_cons, ih, List.countP_cons]
      by_cases h : i.type = t
      · simp [bumpType, h] <;> omega
      · simp [bumpType, h, Ne.symm h]

lemma issuesFold_cat (issues : List SeoIssue)
    (acc : (IssueType → Nat) × (IssueCategory → Nat)) (c : IssueCategory) :
    (issues.foldl
        (fun a i => (bumpType a.1 i.type, bumpCat a.2 i.category)) acc).2 c =
      acc.2 c + issues.countP (fun i => i.category == c) := by
  induction issues generalizing acc with
  | nil => simp
  | cons i is ih =>
      rw [List.foldl_cons, ih, List.countP_cons]
      by_cases h : i.category = c
      · simp [bumpCat, h] <;> omega
      · simp [bumpCat, h, Ne.symm h]

lemma analysesFold_type (analyses : List PageAnalysis)
    (acc : (IssueType → Nat) × (IssueCategory → Nat)) (t : IssueType) :
    (analyses.foldl
        (fun acc pg => pg.issues.foldl
          (fun a i => (bumpType a.1 i.type, bumpCat a.2 i.category)) acc)
        acc).1 t =
      acc.1 t +
        (analyses.flatMap (fun pg => pg.issues)).countP (fun i => i.type == t) := by
  induction analyses generalizing acc with
  | nil => simp
  | cons pg rest ih =>
      rw [List.foldl_cons, ih, issuesFold_type, List.flatMap_cons,
        List.countP_append] <;> omega

lemma analysesFold_cat (analyses : List PageAnalysis)
    (acc : (IssueType → Nat) × (IssueCategory → Nat)) (c : IssueCategory) :
    (analyses.foldl
        (fun acc pg => pg.issues.foldl
          (fun a i => (bumpType a.1 i.type, bumpCat a.2 i.category)) acc)
        acc).2 c =
      acc.2 c +
        (analyses.flatMap (fun pg => pg.issues)).countP
          (fun i => i.category == c) := by
  induction analyses generalizing acc with
  | nil => simp
  | cons pg rest ih =>
      rw [List.foldl_cons, ih, issuesFold_cat, List.flatMap_cons,
        List.countP_append] <;> omega

lemma mem_insertDesc {x z : IssueCategory × Nat} :
    ∀ {l : List (IssueCategory × Nat)}, z ∈ insertDesc x l ↔ z = x ∨ z ∈ l := by
  intro l
  induction l with
  | nil => simp [insertDesc]
  | cons y ys ih =>
      simp only [insertDesc]
      split_ifs with h
      · simp [ih]; tauto
      · simp [List.mem_cons]

lemma insertDesc_perm (x : IssueCategory × Nat)
    (l : List (IssueCategory × Nat)) : List.Perm (insertDesc x l) (x :: l) := by
  induction l with
  | nil => exact List.Perm.refl _
  | cons y ys ih =>
      simp only [insertDesc]
      split_ifs with h
      · exact (ih.cons y).trans (List.Perm.swap x y ys)
      · exact List.Perm.refl _

lemma insertDesc_pairwise (x : IssueCategory × Nat) :
    ∀ {l : List (IssueCategory × Nat)}, l.Pairwise entryRel →
      (∀ y ∈ l, catIdx y.1 < catIdx x.1) →
      (insertDesc x l).Pairwise entryRel := by
  intro l
  induction l with
  | nil => intro _ _; simp [insertDesc]
  | cons y ys ih =>
      intro hp hx
      rw [List.pairwise_cons] at hp
      obtain ⟨hy, hys⟩ := hp
      simp only [insertDesc]
      split_ifs with h
      · rw [List.pairwise_cons]
        refine ⟨?_, ih hys (fun z hz => hx z (List.mem_cons_of_mem y hz))⟩
        intro z hz
        rcases mem_insertDesc.mp hz with rfl | hz'
        · rcases Nat.lt_or_ge z.2 y.2 with hlt | hge
          · exact Or.inl hlt
          · exact Or.inr ⟨Nat.le_antisymm hge h, hx y (List.mem_cons_self y ys)⟩
        · exact hy z hz'
      · rw [List.pairwise_cons]
        constructor
        · intro z hz
          rcases List.mem_cons.mp hz with rfl | hz'
          · exact Or.inl (Nat.lt_of_not_le h)
          · have hz2 : z.2 ≤ y.2 := by
              rcases hy z hz' with h' | h'
              · exact Nat.le_of_lt h'
              · exact Nat.le_of_eq h'.1.symm
            exact Or.inl (Nat.lt_of_le_of_lt hz2 (Nat.lt_of_not_le h))
        · rw [List.pairwise_cons]; exact ⟨hy, hys⟩

lemma foldl_insertDesc_perm :
    ∀ (l acc : List (IssueCategory × Nat)),
      List.Perm (l.foldl (fun a x => insertDesc x a) acc) (l ++ acc)
  | [], acc => by simp
  | x :: xs, acc => by
      show List.Perm (xs.foldl (fun a x => insertDesc x a) (insertDesc x acc)) _
      exact ((foldl_insertDesc_perm xs (insertDesc x acc)).trans
        ((insertDesc_perm x acc).append_left xs)).trans List.perm_middle

lemma sortDescStable_perm (l : List (IssueCategory × Nat)) :
    List.Perm (sortDescStable l) l := by
  simpa using foldl_insertDesc_perm l []

lemma sortDescStable_four (e1 e2 e3 e4 : IssueCategory × Nat)
    (h12 : catIdx e1.1 < catIdx e2.1) (h13 : catIdx e1.1 < catIdx e3.1)
    (h23 : catIdx e2.1 < catIdx e3.1) (h14 : catIdx e1.1 < catIdx e4.1)
    (h24 : catIdx e2.1 < catIdx e4.1) (h34 : catIdx e3.1 < catIdx e4.1) :
    (sortDescStable [e1, e2, e3, e4]).Pairwise entryRel := by
  have m1 : ∀ y ∈ insertDesc e1 ([] : List (IssueCategory × Nat)), y = e1 := by
    intro y hy
    rcases mem_insertDesc.mp hy with rfl | hy'
    · rfl
    · exact absurd hy' (List.not_mem_nil y)
  have p1 : (insertDesc e1 ([] : List (IssueCategory × Nat))).Pairwise entryRel := by
    simp [insertDesc]
  have p2 := insertDesc_pairwise e2 p1 (fun y hy => by rw [m1 y hy]; exact h12)
  have m2 : ∀ y ∈ insertDesc e2 (insertDesc e1 ([] : List (IssueCategory × Nat))),
      y = e1 ∨ y = e2 := by
    intro y hy
    rcases mem_insertDesc.mp hy with rfl | hy'
    · exact Or.inr rfl
    · exact Or.inl (m1 y hy')
  have p3 := insertDesc_pairwise e3 p2 (fun y hy => by
    rcases m2 y hy with rfl | rfl
    · exact h13
    · exact h23)
  have m3 : ∀ y ∈ insertDesc e3
      (insertDesc e2 (insertDesc e1 ([] : List (IssueCategory × Nat)))),
      y = e1 ∨ y = e2 ∨ y = e3 := by
    intro y hy
    rcases mem_insertDesc.mp hy with rfl | hy'
    · exact Or.inr (Or.inr rfl)
    · rcases m2 y hy' with h' | h'
      · exact Or.inl h'
      · exact Or.inr (Or.inl h')
  have p4 := insertDesc_pairwise e4 p3 (fun y hy => by
    rcases m3 y hy with rfl | rfl | rfl
    · exact h14
    · exact h24
    · exact h34)
  exact p4

/-- C7: for a non-empty batch, `generateSummary` returns the page count, the
summed issue count, the half-up-rounded mean score, per-type and per-category
issue counts over all pages, and `topIssues` = the four category entries
stably sorted by count descending (ties keep the enumeration order
title, meta_description, h1, images, captured by `entryRel`), truncated to
three. -/
theorem claim_C7 (analyses : List PageAnalysis) (h : analyses ≠ []) :
    (generateSummary analyses).totalPages = analyses.length ∧
    (generateSummary analyses).totalIssues =
      (analyses.map (fun pg => pg.issues.length)).sum ∧
    (generateSummary analyses).averageScore =
      some (round
        ((((analyses.map (fun pg => pg.score)).sum : Int) : ℚ) /
          (analyses.length : ℚ))) ∧
    (∀ t, (generateSummary analyses).issuesByType t =
      (analyses.flatMap (fun pg => pg.issues)).countP (fun i => i.type == t)) ∧
    (∀ c, (generateSummary analyses).issuesByCategory c =
      (analyses.flatMap (fun pg => pg.issues)).countP
        (fun i => i.category == c)) ∧
    (∃ S, List.Perm S
        [(IssueCategory.title,
            (generateSummary analyses).issuesByCategory IssueCategory.title),
         (IssueCategory.meta_description,
            (generateSummary analyses).issuesByCategory IssueCategory.meta_description),
         (IssueCategory.h1,
            (generateSummary analyses).issuesByCategory IssueCategory.h1),
         (IssueCategory.images,
            (generateSummary analyses).issuesByCategory IssueCategory.images)] ∧
      S.Pairwise entryRel ∧
      (generateSummary analyses).topIssues = S.take 3) := by
  have hlen0 : ¬ analyses.length = 0 := fun hb => h (List.length_eq_zero.mp hb)
  refine ⟨rfl, ?_, ?_, ?_, ?_, ?_⟩
  · show analyses.foldl (fun s pg => s + pg.issues.length) 0 = _
    simpa using foldl_add_map (fun pg : PageAnalysis => pg.issues.length) analyses 0
  · have hs : analyses.foldl (fun s pg => s + pg.score) 0 =
        ((analyses.map (fun pg => pg.score)).sum : Int) := by
      simpa using foldl_add_map (fun pg : PageAnalysis => pg.score) analyses 0
    show (if analyses.length = 0 then none
          else some (mathRound
            (((analyses.foldl (fun s pg => s + pg.score) 0 : Int) : ℚ) /
              (analyses.length : ℚ)))) = _
    rw [if_neg hlen0, hs, round_eq]
    rfl
  · intro t
    show (analyses.foldl
        (fun acc pg => pg.issues.foldl
          (fun a i => (bumpType a.1 i.type, bumpCat a.2 i.category)) acc)
        (fun _ => 0, fun _ => 0)).1 t = _
    rw [analysesFold_type]
    simp
  · intro c
    show (analyses.foldl
        (fun acc pg => pg.issues.foldl
          (fun a i => (bumpType a.1 i.type, bumpCat a.2 i.category)) acc)
        (fun _ => 0, fun _ => 0)).2 c = _
    rw [analysesFold_cat]
    simp
  · refine ⟨sortDescStable
      [(IssueCategory.title,
          (generateSummary analyses).issuesByCategory IssueCategory.title),
       (IssueCategory.meta_description,
          (generateSummary analyses).issuesByCategory IssueCategory.meta_description),
       (IssueCategory.h1,
          (generateSummary analyses).issuesByCategory IssueCategory.h1),
       (IssueCategory.images,
          (generateSummary analyses).issuesByCategory IssueCategory.images)],
      sortDescStable_perm _, ?_, rfl⟩
    exact sortDescStable_four _ _ _ _ (by simp [catIdx]) (by simp [catIdx])
      (by simp [catIdx]) (by simp [catIdx]) (by simp [catIdx]) (by simp [catIdx])

/-- C7 witness at the one-page batch `[pa0]`. -/
theorem claim_C7_witness :
    ([pa0] : List PageAnalysis) ≠ [] ∧
    (generateSummary [pa0]).totalPages = 1 ∧
    (generateSummary [pa0]).totalIssues = 0 :=
  ⟨by simp, by simpa using (claim_C7 [pa0] (by simp)).1,
    by simpa using (claim_C7 [pa0] (by simp)).2.1⟩

/-- C8 counterexample: on the empty batch the summary and the row-level
report perform `0 / 0`, so `averageScore` and every percentage are `NaN`
(modelled `none`) rather than a well-defined integer such as 0. -/
theorem claim_C8_counterexample :
    (generateSummary []).averageScore = none ∧
    (generateSummaryReport []).missingTitles.percentage = none ∧
    (generateSummaryReport []).imagesWithoutAlt.averagePerPage = none :=
  ⟨rfl, rfl, rfl⟩

/-- C8 (amended): on the empty batch neither aggregation raises — the
integral fields are all the expected zeros and `topIssues` is the first
three categories with count 0 — but no zero-page result is defined for the
divisions: `averageScore`, every row-level percentage, and the
images-per-page average are the non-finite `0 / 0` (modelled `none`), not
integers. -/
theorem claim_C8 :
    (generateSummary []).totalPages = 0 ∧
    (generateSummary []).totalIssues = 0 ∧
    (generateSummary []).averageScore = none ∧
    (∀ t, (generateSummary []).issuesByType t = 0) ∧
    (∀ c, (generateSummary []).issuesByCategory c = 0) ∧
    (generateSummary []).topIssues =
      [(IssueCategory.title, 0), (IssueCategory.meta_description, 0),
       (IssueCategory.h1, 0)] ∧
    (generateSummaryReport []).totalPages = 0 ∧
    (generateSummaryReport []).missingTitles = ⟨0, none⟩ ∧
    (generateSummaryReport []).missingMetaDescriptions = ⟨0, none⟩ ∧
    (generateSummaryReport []).noH1Tags = ⟨0, none⟩ ∧
    (generateSummaryReport []).multipleH1Tags = ⟨0, none⟩ ∧
    (generateSummaryReport []).imagesWithoutAlt = ⟨0, none⟩ :=
  ⟨rfl, rfl, rfl, fun t => rfl, fun c => rfl, rfl, rfl, rfl, rfl, rfl, rfl, rfl⟩

lemma digitChar_ne_newline {m : Nat} (hm : m < 10) :
    Nat.digitChar m ≠ '\n' := by
  interval_cases m <;> decide

lemma toDigitsCore_ne_newline :
    ∀ (f n : Nat) (acc : List Char), '\n' ∉ acc →
      '\n' ∉ Nat.toDigitsCore 10 f n acc := by
  intro f
  induction f with
  | zero => intro n acc h; simpa [Nat.toDigitsCore] using h
  | succ f ih =>
      intro n acc h
      simp only [Nat.toDigitsCore]
      split_ifs with hd
      · intro hmem
        rcases List.mem_cons.mp hmem with h1 | h2
        · exact digitChar_ne_newline (Nat.mod_lt n (by decide)) h1.symm
        · exact h h2
      · refine ih _ _ ?_
        intro hmem
        rcases List.mem_cons.mp hmem with h1 | h2
        · exact digitChar_ne_newline (Nat.mod_lt n (by decide)) h1.symm
        · exact h h2

lemma repr_noNewline (n : Nat) : noNewline (Nat.repr n) := by
  have hmem : '\n' ∉ Nat.toDigitsCore 10 (n + 1) n [] :=
    toDigitsCore_ne_newline (n + 1) n [] (by simp)
  exact List.count_eq_zero.mpr hmem

lemma nlCount_append (a b : String) :
    nlCount (a ++ b) = nlCount a + nlCount b := by
  simp [nlCount, String.data_append, List.count_append]

lemma joinWith_cons_cons (sep x y : String) (ys : List String) :
    joinWith sep (x :: y :: ys) = x ++ sep ++ joinWith sep (y :: ys) := rfl

lemma noNewline_joinWith (sep : String) (hsep : noNewline sep) :
    ∀ (l : List String), (∀ s ∈ l, noNewline s) →
      noNewline (joinWith sep l) := by
  intro l
  induction l with
  | nil => intro _; rfl
  | cons x xs ih =>
      intro hall
      cases xs with
      | nil => exact hall x (by simp)
      | cons y ys =>
          rw [joinWith_cons_cons]
          unfold noNewline at *
          rw [nlCount_append, nlCount_append,
            hall x (by simp), hsep,
            ih (fun s hs => hall s (List.mem_cons_of_mem x hs))]

lemma noNewline_quoteField {s : String} (h : noNewline s) :
    noNewline (quoteField s) := by
  unfold quoteField noNewline at *
  rw [nlCount_append, nlCount_append, h]
  rfl

lemma nlCount_joinWith_newline :
    ∀ (l : List String), (∀ s ∈ l, noNewline s) → l ≠ [] →
      nlCount (joinWith "\n" l) = l.length - 1 := by
  intro l
  induction l with
  | nil => intro _ hne; exact absurd rfl hne
  | cons x xs ih =>
      intro hall _
      cases xs with
      | nil => exact hall x (by simp)
      | cons y ys =>
          rw [joinWith_cons_cons, nlCount_append, nlCount_append,
            hall x (by simp),
            ih (fun s hs => hall s (List.mem_cons_of_mem x hs)) (by simp)]
          simp [nlCount]
          omega

set_option maxRecDepth 40000 in
/-- C9 counterexample: a row whose `url` field contains a newline makes the
unescaped CSV output have 3 lines instead of `rows.length + 1 = 2`. -/
theorem claim_C9_counterexample :
    lineCount (convertToCSV [badRow]) = 3 ∧
    ¬ lineCount (convertToCSV [badRow]) = [badRow].length + 1 :=
  ⟨by decide, by decide⟩

/-- C9 (amended): `convertToCSV` emits the verbatim 13-column header line
first and one joined line per row in input order (string fields quoted with
no escaping, `h1Count` and `imagesWithoutAlt` unquoted), and — provided no
string field of any row contains a newline — the output has exactly
`rows.length + 1` lines. -/
theorem claim_C9 (rows : List SeoDataRow) :
    (convertToCSV rows =
      joinWith "\n"
        ("Page URL,Current Title Tag,Title Issue,Title Recommendation,Current Meta Description,Meta Issue,Meta Recommendation,H1 Count,H1 Content,H1 Issue,H1 Recommendation,Images Missing Alt Text,Image Recommendation"
          :: rows.map rowLine)) ∧
    ((∀ r ∈ rows, rowNewlineFree r) →
      lineCount (convertToCSV rows) = rows.length + 1) := by
  constructor
  · show joinWith "\n" (joinWith "," csvHeaders :: rows.map rowLine) = _
    congr 1
  · intro hall
    have hhdr : noNewline (joinWith "," csvHeaders) := by
      show nlCount (joinWith "," csvHeaders) = 0
      decide
    have hrow : ∀ r ∈ rows, noNewline (rowLine r) := by
      intro r hr
      obtain ⟨hu, htc, hti, hts, hmd, hmi, hms, hhc, hhi, hhs, his⟩ := hall r hr
      apply noNewline_joinWith "," rfl
      intro s hs
      simp only [List.mem_cons, List.not_mem_nil, or_false] at hs
      rcases hs with rfl|rfl|rfl|rfl|rfl|rfl|rfl|rfl|rfl|rfl|rfl|rfl|rfl
      · exact noNewline_quoteField hu
      · exact noNewline_quoteField htc
      · exact noNewline_quoteField hti
      · exact noNewline_quoteField hts
      · exact noNewline_quoteField hmd
      · exact noNewline_quoteField hmi
      · exact noNewline_quoteField hms
      · exact repr_noNewline _
      · exact noNewline_quoteField hhc
      · exact noNewline_quoteField hhi
      · exact noNewline_quoteField hhs
      · exact repr_noNewline _
      · exact noNewline_quoteField his
    have hlen : nlCount (joinWith "\n" (joinWith "," csvHeaders :: rows.map rowLine)) =
        (joinWith "," csvHeaders :: rows.map rowLine).length - 1 :=
      nlCount_joinWith_newline _
        (fun s hs => by
          rcases List.mem_cons.mp hs with rfl | hs'
          · exact hhdr
          · obtain ⟨r, hr, rfl⟩ := List.mem_map.mp hs'
            exact hrow r hr)
        (by simp)
    show nlCount (joinWith "\n" (joinWith "," csvHeaders :: rows.map rowLine)) + 1 =
      rows.length + 1
    rw [hlen]
    simp

/-- C9 witness at `[row0]`, whose fields are newline-free. -/
theorem claim_C9_witness :
    lineCount (convertToCSV [row0]) = [row0].length + 1 :=
  (claim_C9 [row0]).2 (fun r hr => by
    simp only [List.mem_singleton] at hr
    subst hr
    exact ⟨rfl, rfl, rfl, rfl, rfl, rfl, rfl, rfl, rfl, rfl, rfl⟩)

/-- C10: every row produced by `extractSeoData` has `totalImages = 0` — the
field is a hardcoded constant independent of the analyzed page. -/
theorem claim_C10 (analyses : List PageAnalysis) :
    (extractSeoData analyses).map (fun row => row.totalImages) =
      List.replicate analyses.length 0 := by
  induction analyses with
  | nil => rfl
  | cons a as ih => exact congrArg (List.cons 0) ih
